import Mathlib

/-!
Verification of the UniQue course-material platform (`src/Minor`).

The development shallowly embeds the pieces of the repository that the
specification's testable properties talk about:

* `services/question_generator.py` — the structured-output resolution step
  (`_parse_json_response` plus the deterministic fallback synthesizers);
* `services/document_processor.py` — `process_pdf` (extract, chunk, embed,
  store) over an explicit model of the Chroma vector store;
* `services/rag_engine.py` — `get_documents_context`, `delete_document`
  and the source-list extraction of `answer_query`;
* `services/database.py` — the `documents` table,
  `create_document` / `update_document_status` / `delete_document`;
* `pages/3_Faculty_Portal.py` — the tab-1 upload flow and the tab-2
  delete-button handler, as sequences of calls into the above.

External collaborators (the Chroma client, the text splitter, `json.loads`)
are modelled at their interface as the spec directs; each such model carries
a doc comment naming its restrictions.
-/

namespace UniQue

/-- JSON values as handled by the response parser.  Numerals are restricted
to integers: `json.loads` also accepts float numerals, which this model
rejects (no claim depends on them). -/
inductive Json where
  | null
  | bool (b : Bool)
  | num (n : Int)
  | str (s : String)
  | arr (elems : List Json)
  | obj (fields : List (String × Json))

/-- whitespace characters accepted between JSON tokens (per `json.loads`) -/
def isJsonWs (c : Char) : Bool := c = ' ' || c = '\t' || c = '\n' || c = '\r'

def skipWs : List Char → List Char
  | [] => []
  | c :: cs => if isJsonWs c then skipWs cs else c :: cs

def hexVal (c : Char) : Option Nat :=
  if '0' ≤ c ∧ c ≤ '9' then some (c.toNat - '0'.toNat)
  else if 'a' ≤ c ∧ c ≤ 'f' then some (c.toNat - 'a'.toNat + 10)
  else if 'A' ≤ c ∧ c ≤ 'F' then some (c.toNat - 'A'.toNat + 10)
  else none

/-- decode one string-escape sequence (the part after the backslash);
surrogate pairs are not combined -/
def unescape : List Char → Option (Char × List Char)
  | '"' :: r => some ('"', r)
  | '\\' :: r => some ('\\', r)
  | '/' :: r => some ('/', r)
  | 'b' :: r => some ('\x08', r)
  | 'f' :: r => some ('\x0c', r)
  | 'n' :: r => some ('\n', r)
  | 'r' :: r => some ('\r', r)
  | 't' :: r => some ('\t', r)
  | 'u' :: a :: b :: c :: d :: r =>
    match hexVal a, hexVal b, hexVal c, hexVal d with
    | some x, some y, some z, some w =>
      some (Char.ofNat (((x * 16 + y) * 16 + z) * 16 + w), r)
    | _, _, _, _ => none
  | _ => none

/-- body of a JSON string after the opening quote; fuel bounds the input length -/
def parseStringRest : Nat → List Char → Option (List Char × List Char)
  | 0, _ => none
  | _, [] => none
  | fuel + 1, c :: cs =>
    if c = '"' then some ([], cs)
    else if c = '\\' then
      match unescape cs with
      | some (d, rest) =>
        match parseStringRest fuel rest with
        | some (body, r) => some (d :: body, r)
        | none => none
      | none => none
    else
      match parseStringRest fuel cs with
      | some (body, r) => some (c :: body, r)
      | none => none

def digitsToNat (ds : List Char) : Nat :=
  ds.foldl (fun acc c => acc * 10 + (c.toNat - '0'.toNat)) 0

/-- integer numeral: optional minus then a digit run without leading zeros;
a following '.', 'e' or 'E' (a float numeral) is outside this model -/
def parseNumber (s : List Char) : Option (Json × List Char) :=
  let signed := match s with
    | '-' :: rest => (true, rest)
    | _ => (false, s)
  let ds := signed.2.takeWhile Char.isDigit
  let rest := signed.2.dropWhile Char.isDigit
  if ds.isEmpty then none
  else if 1 < ds.length ∧ ds.headD '0' = '0' then none
  else match rest with
    | '.' :: _ => none
    | 'e' :: _ => none
    | 'E' :: _ => none
    | _ =>
      let n : Int := Int.ofNat (digitsToNat ds)
      some (.num (if signed.1 then -n else n), rest)

mutual

/-- one JSON value; fuel bounds the nesting/element recursion -/
def parseValue : Nat → List Char → Option (Json × List Char)
  | 0, _ => none
  | fuel + 1, s =>
    match skipWs s with
    | 'n' :: 'u' :: 'l' :: 'l' :: rest => some (.null, rest)
    | 't' :: 'r' :: 'u' :: 'e' :: rest => some (.bool true, rest)
    | 'f' :: 'a' :: 'l' :: 's' :: 'e' :: rest => some (.bool false, rest)
    | '"' :: rest =>
      match parseStringRest (rest.length + 1) rest with
      | some (body, r) => some (.str (String.mk body), r)
      | none => none
    | '[' :: rest =>
      match skipWs rest with
      | ']' :: r2 => some (.arr [], r2)
      | _ =>
        match parseElems fuel rest with
        | some (vs, r) => some (.arr vs, r)
        | none => none
    | '{' :: rest =>
      match skipWs rest with
      | '}' :: r2 => some (.obj [], r2)
      | _ =>
        match parseFields fuel rest with
        | some (fs, r) => some (.obj fs, r)
        | none => none
    | c :: rest => if c = '-' ∨ c.isDigit then parseNumber (c :: rest) else none
    | [] => none

/-- comma-separated array elements up to the closing bracket -/
def parseElems : Nat → List Char → Option (List Json × List Char)
  | 0, _ => none
  | fuel + 1, s =>
    match parseValue fuel s with
    | none => none
    | some (v, rest) =>
      match skipWs rest with
      | ',' :: r2 =>
        match parseElems fuel r2 with
        | some (vs, r3) => some (v :: vs, r3)
        | none => none
      | ']' :: r2 => some ([v], r2)
      | _ => none

/-- comma-separated object members up to the closing brace -/
def parseFields : Nat → List Char → Option (List (String × Json) × List Char)
  | 0, _ => none
  | fuel + 1, s =>
    match skipWs s with
    | '"' :: rest =>
      match parseStringRest (rest.length + 1) rest with
      | none => none
      | some (key, r1) =>
        match skipWs r1 with
        | ':' :: r2 =>
          match parseValue fuel r2 with
          | none => none
          | some (v, r3) =>
            match skipWs r3 with
            | ',' :: r4 =>
              match parseFields fuel r4 with
              | some (fs, r5) => some ((String.mk key, v) :: fs, r5)
              | none => none
            | '}' :: r4 => some ([(String.mk key, v)], r4)
            | _ => none
        | _ => none
    | _ => none

end

/-- model of Python `json.loads` (with the restrictions noted above): one
JSON document surrounded by optional whitespace; `none` where `json.loads`
raises `JSONDecodeError` -/
def jsonLoads (s : String) : Option Json :=
  match parseValue (2 * s.length + 2) s.toList with
  | some (v, rest) => if (skipWs rest).isEmpty then some v else none
  | none => none

/-- index of the first occurrence of `c` (Python `str.find`; `none` for -1) -/
def findIdx (cs : List Char) (c : Char) : Option Nat :=
  match cs with
  | [] => none
  | x :: xs => if x = c then some 0 else (findIdx xs c).map (· + 1)

/-- index of the last occurrence of `c` (Python `str.rfind`; `none` for -1) -/
def rfindIdx (cs : List Char) (c : Char) : Option Nat :=
  match cs with
  | [] => none
  | x :: xs =>
    match rfindIdx xs c with
    | some i => some (i + 1)
    | none => if x = c then some 0 else none

/-- `QuestionGenerator._parse_json_response`: slice from the first '[' to the
last ']' and parse it; a missing bracket pair or a parse failure (the caught
`JSONDecodeError`) yields the empty list -/
def parse_json_response (response : String) : List Json :=
  let cs := response.toList
  match findIdx cs '[', rfindIdx cs ']' with
  | some start, some last =>
    if start ≤ last then
      match jsonLoads (String.mk ((cs.drop start).take (last + 1 - start))) with
      | some (.arr qs) => qs
      | _ => []
    else []
  | _, _ => []

/-- `_generate_fallback_assignment` element `i` (0-based); marks are
5 for the first `num_questions // 2` questions and 10 afterwards -/
def fallbackAssignmentQ (num_questions : Nat) (i : Nat) : Json :=
  .obj [
    ("question_number", .num (Int.ofNat i + 1)),
    ("question", .str ("Question " ++ toString (i + 1) ++
      ": Based on the provided content, explain [topic] with relevant examples.")),
    ("type", .str (if i % 2 = 0 then "theory" else "analytical")),
    ("marks", .num (if i < num_questions / 2 then 5 else 10)),
    ("marking_scheme", .str "Refer to content for detailed marking"),
    ("sample_answer", .str "Answer should cover key concepts from the provided material")
  ]

/-- `_generate_fallback_mcqs` element `i` (0-based) -/
def fallbackMcqQ (i : Nat) : Json :=
  .obj [
    ("question_number", .num (Int.ofNat i + 1)),
    ("question", .str ("Question " ++ toString (i + 1) ++ " from content")),
    ("options", .obj [("A", .str "Option A"), ("B", .str "Option B"),
                      ("C", .str "Option C"), ("D", .str "Option D")]),
    ("correct_answer", .str "A"),
    ("explanation", .str "Refer to content for explanation")
  ]

/-- `_generate_fallback_viva` element `i` (0-based); the question text is a
constant (the source f-string has no placeholder) -/
def fallbackVivaQ (i : Nat) : Json :=
  .obj [
    ("question_number", .num (Int.ofNat i + 1)),
    ("question", .str "Explain the concept discussed in the provided content."),
    ("type", .str "conceptual"),
    ("key_points", .arr [.str "Key point 1", .str "Key point 2", .str "Key point 3"]),
    ("difficulty", .str "medium")
  ]

inductive ContentType where
  | assignment
  | mcq
  | viva
deriving DecidableEq

def fallbackQuestions (ct : ContentType) (num_questions : Nat) : List Json :=
  (List.range num_questions).map fun i =>
    match ct with
    | .assignment => fallbackAssignmentQ num_questions i
    | .mcq => fallbackMcqQ i
    | .viva => fallbackVivaQ i

/-- the structured-output resolution step shared by `generate_assignment`,
`generate_mcqs` and `generate_viva_questions`: parse the raw model output,
falling back to the deterministic placeholders only when the parse yields
no questions (`if not questions`) -/
def resolveQuestions (raw : String) (expectedCount : Nat) (ct : ContentType) : List Json :=
  let questions := parse_json_response raw
  if questions.isEmpty then fallbackQuestions ct expectedCount else questions

/-- first binding of key `k` among an object's fields -/
def jsonLookup (fields : List (String × Json)) (k : String) : Option Json :=
  match fields with
  | [] => none
  | (k', v) :: rest => if k' = k then some v else jsonLookup rest k

def isStrVal : Option Json → Bool
  | some (.str _) => true
  | _ => false

def isNumVal : Option Json → Bool
  | some (.num _) => true
  | _ => false

/-- spec §3 question-object shape for the given content type: every variant
carries `question_number` and `question`; the assignment variant adds `type`,
`marks`, `marking_scheme`, `sample_answer`; the MCQ variant adds `options`
(keys A-D mapped to text) with `correct_answer` naming one of them and an
`explanation`; the viva variant adds `type`, `key_points` (list of strings)
and `difficulty` -/
def wellFormedQuestion (ct : ContentType) (j : Json) : Bool :=
  match j with
  | .obj fs =>
    isNumVal (jsonLookup fs "question_number") && isStrVal (jsonLookup fs "question") &&
    (match ct with
     | .assignment =>
       isStrVal (jsonLookup fs "type") && isNumVal (jsonLookup fs "marks") &&
       isStrVal (jsonLookup fs "marking_scheme") && isStrVal (jsonLookup fs "sample_answer")
     | .mcq =>
       (match jsonLookup fs "options" with
        | some (.obj opts) =>
          opts.map Prod.fst = ["A", "B", "C", "D"] && opts.all (fun kv => isStrVal (some kv.2))
        | _ => false) &&
       (match jsonLookup fs "correct_answer" with
        | some (.str a) => a = "A" || a = "B" || a = "C" || a = "D"
        | _ => false) &&
       isStrVal (jsonLookup fs "explanation")
     | .viva =>
       isStrVal (jsonLookup fs "type") &&
       (match jsonLookup fs "key_points" with
        | some (.arr ps) => ps.all (fun p => isStrVal (some p))
        | _ => false) &&
       isStrVal (jsonLookup fs "difficulty"))
  | _ => false

/-! ## Vector store model

The Chroma client is an external collaborator; per spec §6 it is modelled
at its interface: named collections of entries, each entry a chunk text
with string-keyed metadata and a store-assigned id; `from_texts` gets or
creates the named collection and appends; `get(where=...)` filters one
collection's entries by exact metadata match in insertion order;
`delete(ids)` removes entries by id. -/

structure VEntry where
  vid : Nat
  text : String
  metadata : List (String × String)
deriving DecidableEq

structure VCollection where
  cname : String
  entries : List VEntry
deriving DecidableEq

structure VStore where
  collections : List VCollection
  nextId : Nat
deriving DecidableEq

def emptyStore : VStore := ⟨[], 0⟩

/-- first binding of metadata key `k` -/
def metaLookup (md : List (String × String)) (k : String) : Option String :=
  match md with
  | [] => none
  | (k', v) :: rest => if k' = k then some v else metaLookup rest k

def getOrCreateCollection (store : VStore) (name : String) : VStore :=
  if store.collections.any (fun c => c.cname = name) then store
  else { store with collections := store.collections ++ [⟨name, []⟩] }

/-- entries of the collection with the given name ([] when absent) -/
def collectionEntries (store : VStore) (name : String) : List VEntry :=
  match store.collections.find? (fun c => c.cname = name) with
  | some c => c.entries
  | none => []

/-- pair texts with their metadata, assigning consecutive store ids -/
def zipEntries (startId : Nat) : List String → List (List (String × String)) → List VEntry
  | t :: ts, m :: ms => ⟨startId, t, m⟩ :: zipEntries (startId + 1) ts ms
  | _, _ => []

/-- `Chroma.from_texts(texts, metadatas, collection_name=...)`: get or create
the named collection and add the texts to it (fresh ids; nothing removed) -/
def chromaFromTexts (store : VStore) (texts : List String)
    (metadatas : List (List (String × String))) (collectionName : String) : VStore :=
  let store1 := getOrCreateCollection store collectionName
  let newEntries := zipEntries store1.nextId texts metadatas
  { collections := store1.collections.map fun c =>
      if c.cname = collectionName then { c with entries := c.entries ++ newEntries } else c,
    nextId := store1.nextId + newEntries.length }

/-- `vectorstore.get(where={key: val})` on the named collection: the entries
whose metadata binds `key` to `val`, in insertion order -/
def chromaGetWhere (store : VStore) (collectionName key val : String) : List VEntry :=
  (collectionEntries store collectionName).filter
    (fun e => metaLookup e.metadata key = some val)

/-- `vectorstore.delete(ids=...)` on the named collection -/
def chromaDeleteIds (store : VStore) (collectionName : String) (ids : List Nat) : VStore :=
  { store with collections := store.collections.map fun c =>
      if c.cname = collectionName then
        { c with entries := c.entries.filter (fun e => ¬ e.vid ∈ ids) }
      else c }

/-! ## Document processor (`services/document_processor.py`) -/

/-- the errors `process_pdf` raises: `ValueError("No readable text found in
PDF")` is the spec's `EmptyDocumentError`, `ValueError("Failed to split
document into chunks")` its `ChunkingError`; each carries the Python
exception message -/
inductive ProcError where
  | emptyDocument (msg : String)
  | chunkingFailed (msg : String)
deriving DecidableEq

def procErrorMessage : ProcError → String
  | .emptyDocument m => m
  | .chunkingFailed m => m

/-- `_extract_text_from_pdf`: concatenate every page's text, a page with no
extractable text (`page.extract_text()` returning None) contributing "" -/
def extractTextFromPdf (pages : List (Option String)) : String :=
  pages.foldl (fun acc p => acc ++ p.getD "") ""

/-- ASCII whitespace as stripped by Python `str.strip()` (the model is
restricted to ASCII text) -/
def isPyWhitespace (c : Char) : Bool :=
  c = ' ' || c = '\t' || c = '\n' || c = '\r' || c = '\x0b' || c = '\x0c'

/-- `not text.strip()` — true exactly when every character is whitespace -/
def pyStripEmpty (text : String) : Bool :=
  text.toList.all isPyWhitespace

/-- Modelled from the spec: the `RecursiveCharacterTextSplitter` call (an
external library) is "a fixed window (default size 1000 characters,
200-character overlap, measured in character count)" — consecutive windows
of 1000 characters whose starts advance by 800.  The fuel argument only
bounds the recursion (each step consumes 800 characters, so fuel equal to
the input length never runs out). -/
def chunkWindows : Nat → List Char → List String
  | _, [] => []
  | 0, cs => [String.mk cs]
  | fuel + 1, cs =>
    if cs.length ≤ 1000 then [String.mk cs]
    else String.mk (cs.take 1000) :: chunkWindows fuel (cs.drop 800)

def splitIntoChunks (text : String) : List String :=
  chunkWindows text.length text.toList

structure ProcResult where
  document_id : String
  filename : String
  chunks_created : Nat
  stored_path : String
deriving DecidableEq

/-- `DocumentProcessor.process_pdf`: extract, reject all-whitespace text,
chunk, attach one identical metadata dict (keys `doc_id`, `filename`,
`uploaded_by`) per chunk, store them via `Chroma.from_texts` into the
collection named by the document id, and report the chunk count -/
def process_pdf (store : VStore) (pages : List (Option String))
    (doc_id filename uploaded_by : String) : Except ProcError (VStore × ProcResult) :=
  let text := extractTextFromPdf pages
  if pyStripEmpty text then
    .error (.emptyDocument "No readable text found in PDF")
  else
    let chunks := splitIntoChunks text
    if chunks.isEmpty then
      .error (.chunkingFailed "Failed to split document into chunks")
    else
      let metadatas := List.replicate chunks.length
        [("doc_id", doc_id), ("filename", filename), ("uploaded_by", uploaded_by)]
      let store1 := chromaFromTexts store chunks metadatas doc_id
      .ok (store1, ⟨doc_id, filename, chunks.length, "data/chroma"⟩)

/-! ## RAG engine (`services/rag_engine.py`)

`RAGEngine` binds its vectorstore to the single collection
`"faculty_documents"` (`_initialize_vectorstore`); every query and delete
below runs against that collection. -/

/-- the `for doc_id in document_ids` loop of `get_documents_context`: each
`vectorstore.get` may raise (the index query is network/disk I/O), and the
loop extends the accumulator only when the result is non-empty -/
def gatherChunks (query : String → Except String (List String)) :
    List String → Except String (List String)
  | [] => .ok []
  | doc_id :: rest =>
    match query doc_id with
    | .error e => .error e
    | .ok docs =>
      match gatherChunks query rest with
      | .error e => .error e
      | .ok more => .ok (if docs.isEmpty then more else docs ++ more)

/-- `RAGEngine.get_documents_context` over an abstract per-id index query:
the whole body is wrapped in try/except, any exception yielding "" -/
def getDocumentsContextWith (query : String → Except String (List String))
    (document_ids : List String) : String :=
  match gatherChunks query document_ids with
  | .ok all_chunks => String.intercalate "\n\n" (all_chunks.take 20)
  | .error _ => ""

/-- `RAGEngine.get_documents_context` against a concrete store: the index
query is `vectorstore.get(where={"document_id": doc_id})` on the
`"faculty_documents"` collection -/
def get_documents_context (store : VStore) (document_ids : List String) : String :=
  getDocumentsContextWith
    (fun doc_id =>
      .ok ((chromaGetWhere store "faculty_documents" "document_id" doc_id).map (fun e => e.text)))
    document_ids

/-- `RAGEngine.delete_document`: fetch the ids matching
`where={"document_id": doc_id}` in the `"faculty_documents"` collection and
delete them; nothing happens when the fetch returns no ids -/
def ragDeleteDocument (store : VStore) (doc_id : String) : VStore :=
  let results := chromaGetWhere store "faculty_documents" "document_id" doc_id
  if results.isEmpty then store
  else chromaDeleteIds store "faculty_documents" (results.map (fun e => e.vid))

/-- the source-list extraction of `answer_query` (also `generate_study_notes`
and `generate_practice_questions`):
`list(set(doc.metadata.get("source", "Unknown") for doc in source_documents))`.
The Python set dedups with unspecified order; it is modelled as `List.dedup`
(the claims only use distinctness and membership). -/
def extractSources (source_documents : List VEntry) : List String :=
  (source_documents.map (fun d => (metaLookup d.metadata "source").getD "Unknown")).dedup

/-- `answer_query`'s retrieval and source extraction: the similarity search
is an external ANN collaborator, modelled as an abstract selector applied to
the entries of the one global `"faculty_documents"` collection -/
def answerQuerySources (store : VStore) (select : List VEntry → List VEntry) : List String :=
  extractSources (select (collectionEntries store "faculty_documents"))

/-! ## Database (`services/database.py`) and the Faculty Portal flows -/

/-- one row of the `documents` table; timestamps are abstract ticks -/
structure DocRow where
  id : String
  filename : String
  file_path : String
  uploaded_by : String
  course_name : Option String
  status : String
  chunks_created : Option Nat
  error_message : Option String
  created_at : Nat
  updated_at : Nat
deriving DecidableEq

/-- `Database.create_document`: INSERT with `chunks_created` and
`error_message` NULL and both timestamps CURRENT_TIMESTAMP -/
def create_document (rows : List DocRow) (doc_id filename file_path uploaded_by : String)
    (course_name : Option String) (status : String) (now : Nat) : List DocRow :=
  rows ++ [⟨doc_id, filename, file_path, uploaded_by, course_name, status, none, none, now, now⟩]

/-- `Database.update_document_status`: UPDATE sets `status`, `chunks_created`
and `error_message` (Python defaults None, written as NULL) and refreshes
`updated_at` on every row whose id matches -/
def update_document_status (rows : List DocRow) (doc_id status : String)
    (chunks_created : Option Nat) (error_message : Option String) (now : Nat) : List DocRow :=
  rows.map fun r =>
    if r.id = doc_id then
      { r with status := status, chunks_created := chunks_created,
               error_message := error_message, updated_at := now }
    else r

/-- `Database.delete_document`: DELETE the matching row -/
def dbDeleteDocument (rows : List DocRow) (doc_id : String) : List DocRow :=
  rows.filter (fun r => ¬ r.id = doc_id)

/-- one database call made by the Faculty Portal upload flow -/
inductive DbCall where
  | create (doc_id filename file_path uploaded_by : String)
      (course_name : Option String) (status : String)
  | updateStatus (doc_id status : String) (chunks : Option Nat) (err : Option String)
deriving DecidableEq

/-- the sequence of `documents`-table calls the tab-1 upload flow performs:
`db.create_document(..., status="processing")`, then on `process_pdf`
success `db.update_document_status(doc_id, "completed",
chunks_created=result['chunks_created'])`, and in the exception handler
`db.update_document_status(doc_id, "failed", error_message=str(e))` -/
def uploadFlowCalls (store : VStore) (pages : List (Option String))
    (doc_id filename uploaded_by course_name file_path : String) : List DbCall :=
  [.create doc_id filename file_path uploaded_by (some course_name) "processing"] ++
  (match process_pdf store pages doc_id filename uploaded_by with
   | .ok (_, res) => [.updateStatus doc_id "completed" (some res.chunks_created) none]
   | .error e => [.updateStatus doc_id "failed" none (some (procErrorMessage e))])

/-- the tab-1 upload flow's effect on the `documents` table and the vector
store (timestamps frozen at `now`) -/
def uploadFlow (rows : List DocRow) (store : VStore) (pages : List (Option String))
    (doc_id filename uploaded_by course_name file_path : String) (now : Nat) :
    List DocRow × VStore :=
  let rows1 := create_document rows doc_id filename file_path uploaded_by
    (some course_name) "processing" now
  match process_pdf store pages doc_id filename uploaded_by with
  | .ok (store1, res) =>
    (update_document_status rows1 doc_id "completed" (some res.chunks_created) none now, store1)
  | .error e =>
    (update_document_status rows1 doc_id "failed" none (some (procErrorMessage e)) now, store)

/-- the tab-2 delete-button handler: `db.delete_document(doc['id'])` and
nothing else — the vector store is not touched -/
def facultyDeleteHandler (rows : List DocRow) (store : VStore) (doc_id : String) :
    List DocRow × VStore :=
  (dbDeleteDocument rows doc_id, store)

/-! ## Concrete ingestion scenario used by several claims -/

/-- the metadata `process_pdf` attaches to every chunk of document "d1" -/
def demoMeta : List (String × String) :=
  [("doc_id", "d1"), ("filename", "notes.pdf"), ("uploaded_by", "u1")]

def demoEntry : VEntry := ⟨0, "hello world", demoMeta⟩

/-- the store produced by ingesting the one-chunk document "d1" into an
empty store -/
def demoStore : VStore := ⟨[⟨"d1", [demoEntry]⟩], 1⟩

/-- the same document ingested a second time on top of `demoStore` -/
def demoStore2 : VStore := ⟨[⟨"d1", [demoEntry, ⟨1, "hello world", demoMeta⟩]⟩], 2⟩

def demoResult : ProcResult := ⟨"d1", "notes.pdf", 1, "data/chroma"⟩

def rowD1 : DocRow :=
  ⟨"d1", "notes.pdf", "pth", "u1", some "CS", "completed", some 7, none, 1, 2⟩

/-! ## Helper lemmas -/

theorem gatherChunks_ok (f : String → List String) (ids : List String) :
    gatherChunks (fun i => .ok (f i)) ids = .ok (ids.flatMap f) := by
  induction ids with
  | nil => rfl
  | cons i rest ih =>
    simp only [gatherChunks, ih, List.flatMap_cons]
    by_cases h : (f i).isEmpty
    · rw [List.isEmpty_iff.mp h]
      simp
    · simp [h]

theorem zipEntries_length (i : Nat) (ts : List String)
    (ms : List (List (String × String))) :
    (zipEntries i ts ms).length = min ts.length ms.length := by
  induction ts generalizing i ms with
  | nil => cases ms <;> simp [zipEntries]
  | cons t ts ih =>
    cases ms with
    | nil => simp [zipEntries]
    | cons m ms =>
      simp only [zipEntries, List.length_cons, ih]
      omega

theorem any_getOrCreate (store : VStore) (name : String) :
    ((getOrCreateCollection store name).collections.any (fun c => c.cname = name)) = true := by
  unfold getOrCreateCollection
  by_cases h : store.collections.any (fun c => c.cname = name)
  · simp [h]
  · simp [h, List.any_append]

theorem collectionEntries_getOrCreate (store : VStore) (name : String) :
    collectionEntries (getOrCreateCollection store name) name
      = collectionEntries store name := by
  unfold getOrCreateCollection collectionEntries
  by_cases h : store.collections.any (fun c => c.cname = name)
  · simp [h]
  · simp only [h, if_neg, Bool.false_eq_true, not_false_eq_true, if_false]
    have hnone : store.collections.find? (fun c => c.cname = name) = none := by
      rw [List.find?_eq_none]
      intro c hc
      simp only [List.any_eq_true, not_exists, not_and] at h
      intro hcn
      exact (h c hc) hcn
    rw [List.find?_append, hnone]
    simp [List.find?_cons]

theorem collectionEntries_map_update (cols : List VCollection) (k k' : Nat)
    (name : String) (new : List VEntry)
    (h : cols.any (fun c => c.cname = name) = true) :
    collectionEntries
        ⟨cols.map (fun c =>
            if c.cname = name then { c with entries := c.entries ++ new } else c), k⟩ name
      = collectionEntries ⟨cols, k'⟩ name ++ new := by
  induction cols with
  | nil => simp at h
  | cons c rest ih =>
    by_cases hc : c.cname = name
    · simp [collectionEntries, List.find?_cons, hc]
    · have h' : rest.any (fun c => c.cname = name) = true := by
        simp only [List.any_cons, Bool.or_eq_true, decide_eq_true_eq] at h
        exact h.resolve_left hc
      have hrec := ih h'
      simp only [collectionEntries, List.map_cons, if_neg hc, List.find?_cons,
        decide_eq_false hc] at hrec ⊢
      exact hrec

theorem collectionEntries_chromaFromTexts (store : VStore) (texts : List String)
    (metas : List (List (String × String))) (name : String) :
    collectionEntries (chromaFromTexts store texts metas name) name
      = collectionEntries store name
          ++ zipEntries (getOrCreateCollection store name).nextId texts metas := by
  unfold chromaFromTexts
  rw [collectionEntries_map_update _ _ (getOrCreateCollection store name).nextId _ _
        (any_getOrCreate store name)]
  rw [show (⟨(getOrCreateCollection store name).collections,
        (getOrCreateCollection store name).nextId⟩ : VStore)
      = getOrCreateCollection store name from rfl]
  rw [collectionEntries_getOrCreate]

theorem wellFormed_fallbackAssignment (n i : Nat) :
    wellFormedQuestion .assignment (fallbackAssignmentQ n i) = true := rfl

theorem wellFormed_fallbackMcq (i : Nat) :
    wellFormedQuestion .mcq (fallbackMcqQ i) = true := rfl

theorem wellFormed_fallbackViva (i : Nat) :
    wellFormedQuestion .viva (fallbackVivaQ i) = true := rfl

theorem wellFormed_fallbackQuestions (ct : ContentType) (n : Nat) :
    ∀ j ∈ fallbackQuestions ct n, wellFormedQuestion ct j = true := by
  intro j hj
  simp only [fallbackQuestions, List.mem_map] at hj
  obtain ⟨i, _, rfl⟩ := hj
  cases ct with
  | assignment => exact wellFormed_fallbackAssignment n i
  | mcq => exact wellFormed_fallbackMcq i
  | viva => exact wellFormed_fallbackViva i

/-! ## Claims -/

/-- C1 (counterexample): the resolution step does not always return
`expectedCount` well-formed question objects — for the raw text "[1, 2]"
with `expectedCount = 5` and content type mcq, the bracketed substring
parses to the non-empty array [1, 2], which is returned as-is: length 2,
and its elements are numbers, not MCQ objects. -/
theorem C1_resolve_counterexample :
    ¬ ((resolveQuestions "[1, 2]" 5 ContentType.mcq).length = 5 ∧
        ∀ j ∈ resolveQuestions "[1, 2]" 5 ContentType.mcq,
          wellFormedQuestion ContentType.mcq j = true) := by
  decide

/-- C1 (amended): the resolution step is total (a Lean function) and, when
the bracket-slice parse yields no questions, deterministically synthesizes
exactly `expectedCount` well-formed placeholder objects of the requested
content type; when the parse yields a non-empty array, that array is
returned unchanged, whatever its length and element shape. -/
theorem C1_resolve_amended (raw : String) (n : Nat) (ct : ContentType) :
    ((parse_json_response raw).isEmpty = true →
        resolveQuestions raw n ct = fallbackQuestions ct n ∧
        (resolveQuestions raw n ct).length = n ∧
        ∀ j ∈ resolveQuestions raw n ct, wellFormedQuestion ct j = true) ∧
    ((parse_json_response raw).isEmpty = false →
        resolveQuestions raw n ct = parse_json_response raw) := by
  constructor
  · intro h
    have hr : resolveQuestions raw n ct = fallbackQuestions ct n := by
      simp [resolveQuestions, h]
    refine ⟨hr, ?_, ?_⟩
    · rw [hr]; simp [fallbackQuestions]
    · rw [hr]; exact wellFormed_fallbackQuestions ct n
  · intro h
    simp [resolveQuestions, h]

/-- C1 (witness for the amended theorem): on prose with no JSON array and
`expectedCount = 4`, the resolver returns exactly 4 questions. -/
theorem C1_resolve_amended_witness :
    (resolveQuestions "Here are your questions." 4 ContentType.mcq).length = 4 :=
  ((C1_resolve_amended "Here are your questions." 4 ContentType.mcq).1 (by decide)).2.1

/-- C2: evaluation of `process_pdf` at a concrete successful ingestion.
`chunksCreated` does equal the number of stored chunks, but every stored
chunk's metadata binds the keys `doc_id`, `filename`, `uploaded_by` — the
key `document_id` required by the claim (and filtered on by
`rag_engine.py`'s readers) is absent. -/
theorem C2_metadata_keys_evaluated :
    process_pdf emptyStore [some "hello world"] "d1" "notes.pdf" "u1"
        = .ok (demoStore, demoResult) ∧
    demoResult.chunks_created = (collectionEntries demoStore "d1").length ∧
    (∀ e ∈ collectionEntries demoStore "d1",
        e.metadata.map Prod.fst = ["doc_id", "filename", "uploaded_by"] ∧
        metaLookup e.metadata "document_id" = none ∧
        metaLookup e.metadata "doc_id" = some "d1") := by
  refine ⟨rfl, rfl, ?_⟩
  decide

/-- C3: deleting the document "d1" leaves its vectors in the index.  The
tab-2 delete handler only removes the database row and never touches the
vector store; and even `RAGEngine.delete_document` removes nothing, since
it queries the `"faculty_documents"` collection for metadata key
`document_id` while ingestion wrote the collection named "d1" with key
`doc_id` — afterwards the document's collection still holds one entry. -/
theorem C3_deletion_leaves_vectors :
    (facultyDeleteHandler [rowD1] demoStore "d1").2 = demoStore ∧
    ragDeleteDocument demoStore "d1" = demoStore ∧
    (collectionEntries demoStore "d1").length = 1 := by
  refine ⟨rfl, rfl, rfl⟩

/-- C4 (counterexample): re-ingesting document "d1" on top of `demoStore`
(which already holds its single chunk) appends a second copy instead of
overwriting — the collection ends with 2 entries, not the 1 chunk of the
most recent ingestion. -/
theorem C4_reingest_counterexample :
    process_pdf demoStore [some "hello world"] "d1" "notes.pdf" "u1"
        = .ok (demoStore2, demoResult) ∧
    (collectionEntries demoStore2 "d1").length = 2 ∧
    ¬ (collectionEntries demoStore2 "d1").length = 1 := by
  refine ⟨rfl, rfl, by decide⟩

/-- C4 (amended): a successful re-ingestion for a document id appends its
chunks to that id's collection — the entry count grows by `chunksCreated`
(so running ingestion twice duplicates the chunks rather than overwriting
the collection). -/
theorem C4_reingest_appends (store : VStore) (pages : List (Option String))
    (doc_id filename uploaded_by : String) (store1 : VStore) (res : ProcResult)
    (h : process_pdf store pages doc_id filename uploaded_by = .ok (store1, res)) :
    (collectionEntries store1 doc_id).length
      = (collectionEntries store doc_id).length + res.chunks_created := by
  simp only [process_pdf] at h
  split at h
  · exact absurd h (by simp)
  · split at h
    · exact absurd h (by simp)
    · simp only [Except.ok.injEq, Prod.mk.injEq] at h
      obtain ⟨h1, h2⟩ := h
      subst h1
      subst h2
      rw [collectionEntries_chromaFromTexts]
      simp [zipEntries_length, List.length_replicate]

/-- C4 (witness for the amended theorem): the first ingestion grows the
empty store's "d1" collection from 0 to 1 entry. -/
theorem C4_reingest_appends_witness :
    (collectionEntries demoStore "d1").length
      = (collectionEntries emptyStore "d1").length + 1 :=
  C4_reingest_appends emptyStore [some "hello world"] "d1" "notes.pdf" "u1"
    demoStore demoResult rfl

/-- C5: `get_documents_context` returns exactly the blank-line join of the
first 20 chunks (hard cap) drawn, in id-then-chunk index order, from the
chunks whose metadata `document_id` matches one of the given ids. -/
theorem C5_context_assembly (store : VStore) (document_ids : List String) :
    get_documents_context store document_ids
      = String.intercalate "\n\n"
          (((document_ids.flatMap fun i =>
              (collectionEntries store "faculty_documents").filter
                (fun e => metaLookup e.metadata "document_id" = some i)).map
            (fun e => e.text)).take 20) := by
  unfold get_documents_context getDocumentsContextWith
  rw [gatherChunks_ok
    (fun i => (chromaGetWhere store "faculty_documents" "document_id" i).map
      (fun e => e.text)) document_ids]
  rw [List.map_flatMap]
  rfl

/-- C6 (counterexample): on an index entry carrying exactly the metadata
written by ingestion (`doc_id`/`filename`/`uploaded_by`), `answer_query`'s
source extraction returns ["Unknown"], because it reads the metadata key
`source`, which ingestion never writes — the entry is not the filename
"notes.pdf" recorded at ingestion time. -/
theorem C6_sources_counterexample :
    answerQuerySources ⟨[⟨"faculty_documents", [demoEntry]⟩], 1⟩ (fun l => l)
        = ["Unknown"] ∧
    ¬ ("Unknown" = "notes.pdf") ∧
    metaLookup demoEntry.metadata "filename" = some "notes.pdf" := by
  refine ⟨rfl, by decide, rfl⟩

/-- C6 (amended): `answer_query` retrieves from the single global
`"faculty_documents"` collection; its returned source list is deduplicated
(no duplicates), and each entry is the chunk's `source` metadata value with
default "Unknown" — so whenever the retrieved chunks carry no `source` key
(as every chunk written by `process_pdf` does not), every returned source
is the placeholder "Unknown" rather than an ingestion-time filename. -/
theorem C6_sources_amended (store : VStore) (select : List VEntry → List VEntry)
    (hsel : ∀ l, ∀ e ∈ select l, e ∈ l) :
    (answerQuerySources store select).Nodup ∧
    ((∀ e ∈ collectionEntries store "faculty_documents",
        metaLookup e.metadata "source" = none) →
      ∀ s ∈ answerQuerySources store select, s = "Unknown") := by
  constructor
  · exact List.nodup_dedup _
  · intro hsrc s hs
    simp only [answerQuerySources, extractSources, List.mem_dedup, List.mem_map] at hs
    obtain ⟨e, he, rfl⟩ := hs
    rw [hsrc e (hsel _ e he)]
    rfl

/-- C6 (witness for the amended theorem): the source list over a concrete
one-entry index is duplicate-free. -/
theorem C6_sources_amended_witness :
    (answerQuerySources ⟨[⟨"faculty_documents", [demoEntry]⟩], 1⟩ (fun l => l)).Nodup :=
  (C6_sources_amended ⟨[⟨"faculty_documents", [demoEntry]⟩], 1⟩ (fun l => l)
    (fun _ _ he => he)).1

/-- C7: `process_pdf` fails with the empty-document error exactly when the
text concatenated from all pages (a page with no extractable text
contributing "") is entirely whitespace, and on that failure the upload
flow's document row ends with status "failed" and the non-empty error
message "No readable text found in PDF". -/
theorem C7_empty_document_iff (store : VStore) (rows : List DocRow)
    (pages : List (Option String))
    (doc_id filename uploaded_by course_name file_path : String) (now : Nat) :
    ((∃ m, process_pdf store pages doc_id filename uploaded_by
        = .error (.emptyDocument m)) ↔
      pyStripEmpty (extractTextFromPdf pages) = true) ∧
    (pyStripEmpty (extractTextFromPdf pages) = true →
      (uploadFlow rows store pages doc_id filename uploaded_by course_name
          file_path now).1.getLast?
          = some ⟨doc_id, filename, file_path, uploaded_by, some course_name,
                  "failed", none, some "No readable text found in PDF", now, now⟩ ∧
      ¬ ("No readable text found in PDF" = "")) := by
  by_cases hW : pyStripEmpty (extractTextFromPdf pages) = true
  · constructor
    · simp [process_pdf, hW]
    · intro _
      refine ⟨?_, by decide⟩
      simp only [uploadFlow, process_pdf, hW, if_true, create_document,
        update_document_status, procErrorMessage, List.map_append]
      simp [List.getLast?_concat]
  · constructor
    · constructor
      · rintro ⟨m, hm⟩
        exfalso
        simp only [process_pdf] at hm
        split at hm
        next hP => exact hW hP
        next =>
          split at hm
          next => simp at hm
          next => simp at hm
      · intro h
        exact absurd h hW
    · intro h
      exact absurd h hW

/-- C7 (witness): a two-page document whose pages extract to nothing and to
whitespace is all-whitespace, and the upload flow marks it failed with the
non-empty message. -/
theorem C7_empty_document_witness :
    pyStripEmpty (extractTextFromPdf [none, some "  "]) = true ∧
    (uploadFlow [] emptyStore [none, some "  "] "d1" "f.pdf" "u1" "CS" "pth" 0).1.getLast?
        = some ⟨"d1", "f.pdf", "pth", "u1", some "CS", "failed", none,
                some "No readable text found in PDF", 0, 0⟩ :=
  ⟨by decide,
    ((C7_empty_document_iff emptyStore [] [none, some "  "] "d1" "f.pdf" "u1"
        "CS" "pth" 0).2 (by decide)).1⟩

/-- C8 (counterexample): the upload flow creates the document record with
status "processing", not "queued" — the first database call of a concrete
upload is a create with status "processing". -/
theorem C8_status_counterexample :
    (uploadFlowCalls emptyStore [some "hello world"] "d1" "notes.pdf" "u1"
        "CS" "pth").head?
        = some (.create "d1" "notes.pdf" "pth" "u1" (some "CS") "processing") ∧
    ¬ (uploadFlowCalls emptyStore [some "hello world"] "d1" "notes.pdf" "u1"
        "CS" "pth").head?
        = some (.create "d1" "notes.pdf" "pth" "u1" (some "CS") "queued") := by
  refine ⟨rfl, by decide⟩

/-- C8 (amended): every run of the upload flow issues exactly two calls on
the `documents` table: a create with status "processing" (the "queued"
state is skipped), then exactly one terminal update — "completed" with the
chunk count set, or "failed" with a non-empty error message — and nothing
afterwards. -/
theorem C8_lifecycle_amended (store : VStore) (pages : List (Option String))
    (doc_id filename uploaded_by course_name file_path : String) :
    ∃ t, uploadFlowCalls store pages doc_id filename uploaded_by course_name file_path
        = [.create doc_id filename file_path uploaded_by (some course_name) "processing", t] ∧
      ((∃ n, t = .updateStatus doc_id "completed" (some n) none) ∨
       (∃ m, t = .updateStatus doc_id "failed" none (some m) ∧ ¬ m = "")) := by
  unfold uploadFlowCalls
  by_cases hW : pyStripEmpty (extractTextFromPdf pages) = true
  · refine ⟨.updateStatus doc_id "failed" none
      (some "No readable text found in PDF"), ?_, .inr ⟨_, rfl, by decide⟩⟩
    simp [process_pdf, hW, procErrorMessage]
  · by_cases hC : (splitIntoChunks (extractTextFromPdf pages)).isEmpty = true
    · refine ⟨.updateStatus doc_id "failed" none
        (some "Failed to split document into chunks"), ?_, .inr ⟨_, rfl, by decide⟩⟩
      simp [process_pdf, hW, hC, procErrorMessage]
    · refine ⟨.updateStatus doc_id "completed"
        (some (splitIntoChunks (extractTextFromPdf pages)).length) none,
        ?_, .inl ⟨_, rfl⟩⟩
      simp [process_pdf, hW, hC]

/-- C9: `get_documents_context` never raises — when the underlying index
query raises at any point of the loop, the exception is caught and the
empty string returned, the same value produced over an index with no
chunks, so callers cannot tell an index failure from a chunkless
document. -/
theorem C9_context_swallows_errors (query : String → Except String (List String))
    (document_ids : List String)
    (h : ∃ e, gatherChunks query document_ids = .error e) :
    getDocumentsContextWith query document_ids = "" ∧
    getDocumentsContextWith (fun _ => .ok []) document_ids = "" := by
  obtain ⟨e, he⟩ := h
  constructor
  · simp [getDocumentsContextWith, he]
  · have hnil : document_ids.flatMap (fun _ => ([] : List String)) = [] := by simp
    have hok := gatherChunks_ok (fun _ => ([] : List String)) document_ids
    rw [hnil] at hok
    simp only [getDocumentsContextWith, hok]
    rfl

/-- C9 (witness): one id whose index query raises yields the empty
context. -/
theorem C9_context_swallows_errors_witness :
    getDocumentsContextWith (fun _ => Except.error "index down") ["d1"] = "" :=
  (C9_context_swallows_errors (fun _ => Except.error "index down") ["d1"]
    ⟨"index down", rfl⟩).1

/-- C10: `update_document_status` overwrites status, chunks_created and
error_message (unsupplied arguments, modelled as `none`, are written as
NULL rather than preserved) and refreshes only the target's `updated_at`;
every row with a different id is completely unchanged, and no row is added
or removed. -/
theorem C10_update_overwrites_and_frames (rows : List DocRow) (doc_id status : String)
    (chunks_created : Option Nat) (error_message : Option String) (now : Nat) :
    (update_document_status rows doc_id status chunks_created error_message now).length
        = rows.length ∧
    ∀ (i : Nat) (r : DocRow), rows[i]? = some r →
      ((r.id = doc_id →
          (update_document_status rows doc_id status chunks_created error_message now)[i]?
            = some { r with status := status, chunks_created := chunks_created,
                            error_message := error_message, updated_at := now }) ∧
       (¬ r.id = doc_id →
          (update_document_status rows doc_id status chunks_created error_message now)[i]?
            = some r)) := by
  constructor
  · simp [update_document_status]
  · intro i r hr
    constructor
    · intro hid
      simp [update_document_status, List.getElem?_map, hr, hid]
    · intro hid
      simp [update_document_status, List.getElem?_map, hr, hid]

/-- C10 (witness): marking the completed row "d1" (which has a stored chunk
count) as failed with an error message clears the chunk count to NULL and
refreshes `updated_at`, leaving the other columns intact. -/
theorem C10_update_witness :
    (update_document_status [rowD1] "d1" "failed" none (some "boom") 9)[0]?
      = some ⟨"d1", "notes.pdf", "pth", "u1", some "CS", "failed", none,
              some "boom", 1, 9⟩ := by
  have h := ((C10_update_overwrites_and_frames [rowD1] "d1" "failed" none
      (some "boom") 9).2 0 rowD1 (by decide)).1 (by decide)
  exact h

end UniQue
